import Mathlib

/-!
# KaHyPar: the configuration record and the factory wiring

A shallow embedding of

* `src/partition/Configuration.h`: the `Configuration` record, the default
  constructors of its sub-records, and `toString`;
* `kahypar/partition/factories.h`: the factory signatures, the registration
  lambdas, the policy typelists, the refiner dispatchers and the coarsener
  aliases.

Definitions come first, theorems afterwards.
-/

namespace partition

/-! ## Built-in C++ types -/

/-- A value of the C++ type `double`: a finite number (kept as the exact rational it
denotes), negative zero, an infinity, or NaN. -/
inductive Double where
  | finite (q : ℚ)
  | negZero
  | inf (negative : Bool)
  | nan
  deriving DecidableEq

/-- The double denoted by the literal `0.05`: the binary64 number nearest to 1/20,
that is `0x3FA999999999999A = 3602879701896397 * 2^(-56)`. -/
def Double.lit_0_05 : Double := .finite (3602879701896397 / 72057594037927936)

/-- A C++ integer type, given by its signedness and its width in bits. -/
structure IntType where
  isSigned : Bool
  bits : Nat
  deriving DecidableEq

/-- The value `std::numeric_limits<T>::max()` of an integer type. -/
def IntType.max (t : IntType) : Int :=
  if t.isSigned then 2 ^ (t.bits - 1) - 1 else 2 ^ t.bits - 1

/-- Conversion of an integer value to the integer type `t` (reduction modulo `2^bits`
into the range of the type). -/
def IntType.convert (t : IntType) (v : Int) : Int :=
  if t.isSigned then (v + 2 ^ (t.bits - 1)) % 2 ^ t.bits - 2 ^ (t.bits - 1)
  else v % 2 ^ t.bits

/-- The typedefs of `lib/definitions.h` on which initial values of `Configuration`
depend. The header is not among the sources, so the two integer types are parameters of
the constructors below. The other typedefs (`HypernodeID`, `PartitionID`) only ever
receive the literals 0 and 2, which every C++ integer type represents. -/
structure Defs where
  HypernodeWeight : IntType
  HyperedgeID : IntType
  deriving DecidableEq

/-- One possible instance of the typedefs: 32-bit signed weights, 32-bit unsigned ids. -/
def Defs.int32 : Defs := ⟨⟨true, 32⟩, ⟨false, 32⟩⟩

/-! ## `Configuration.h`: the record -/

/-- The enum class `InitialPartitioner`. -/
inductive InitialPartitioner where
  | hMetis
  | PaToH
  | KaHyPar
  deriving DecidableEq

/-- The record `Configuration::CoarseningParameters`. -/
structure Configuration.CoarseningParameters where
  max_allowed_node_weight : Int
  contraction_limit : Int
  contraction_limit_multiplier : Int
  hypernode_weight_fraction : Double
  max_allowed_weight_multiplier : Double
  scheme : String
  deriving DecidableEq

/-- The record `Configuration::InitialPartitioningParameters`. -/
structure Configuration.InitialPartitioningParameters where
  coarse_graph_filename : String
  coarse_graph_partition_filename : String
  k : Int
  epsilon : Double
  mode : String
  upper_allowed_partition_weight : List Int
  perfect_balance_partition_weight : List Int
  nruns : Int
  unassigned_part : Int
  alpha : Double
  beta : Double
  seed : Int
  ils_iterations : Int
  rollback : Bool
  refinement : Bool
  erase_components : Bool
  balance : Bool
  stats : Bool
  styles : Bool
  deriving DecidableEq

/-- The record `Configuration::PartitioningParameters`. -/
structure Configuration.PartitioningParameters where
  k : Int
  seed : Int
  initial_partitioning_attempts : Int
  global_search_iterations : Int
  current_v_cycle : Int
  epsilon : Double
  hmetis_ub_factor : Double
  max_part_weight : Int
  total_graph_weight : Int
  hyperedge_size_threshold : Int
  initial_parallel_he_removal : Bool
  verbose_output : Bool
  initial_partitioner : InitialPartitioner
  graph_filename : String
  graph_partition_filename : String
  coarse_graph_filename : String
  coarse_graph_partition_filename : String
  initial_partitioner_path : String
  deriving DecidableEq

/-- The record `Configuration::FMParameters`. -/
structure Configuration.FMParameters where
  max_number_of_fruitless_moves : Int
  num_repetitions : Int
  alpha : Double
  beta : Double
  stopping_rule : String
  active : Bool
  deriving DecidableEq

/-- The record `Configuration::HERFMParameters`. -/
structure Configuration.HERFMParameters where
  max_number_of_fruitless_moves : Int
  num_repetitions : Int
  stopping_rule : String
  active : Bool
  deriving DecidableEq

/-- The record `Configuration::LPRefinementParameters`. -/
structure Configuration.LPRefinementParameters where
  max_number_iterations : Int
  active : Bool
  deriving DecidableEq

/-- The record `Configuration`. -/
structure Configuration where
  partition : Configuration.PartitioningParameters
  coarsening : Configuration.CoarseningParameters
  initial_partitioning : Configuration.InitialPartitioningParameters
  fm_local_search : Configuration.FMParameters
  her_fm : Configuration.HERFMParameters
  lp_refiner : Configuration.LPRefinementParameters
  deriving DecidableEq

/-! ## `Configuration.h`: the default constructors -/

/-- The constructor `CoarseningParameters()`. -/
def Configuration.CoarseningParameters.ctor : Configuration.CoarseningParameters where
  max_allowed_node_weight := 0
  contraction_limit := 0
  contraction_limit_multiplier := 0
  hypernode_weight_fraction := .finite 0
  max_allowed_weight_multiplier := .finite 0
  scheme := ""

/-- The constructor `InitialPartitioningParameters()`. Members the initializer list
names with empty parentheses are value-initialised. -/
def Configuration.InitialPartitioningParameters.ctor :
    Configuration.InitialPartitioningParameters where
  coarse_graph_filename := ""
  coarse_graph_partition_filename := ""
  k := 2
  epsilon := Double.lit_0_05
  mode := ""
  upper_allowed_partition_weight := []
  perfect_balance_partition_weight := []
  seed := -1
  nruns := 1
  alpha := .finite 1
  beta := .finite 1
  unassigned_part := 0
  ils_iterations := 0
  rollback := false
  refinement := false
  erase_components := false
  balance := false
  stats := false
  styles := false

/-- The constructor `PartitioningParameters()`. -/
def Configuration.PartitioningParameters.ctor (defs : Defs) :
    Configuration.PartitioningParameters where
  k := 2
  seed := 0
  initial_partitioning_attempts := 1
  global_search_iterations := 1
  current_v_cycle := 0
  epsilon := .finite 1
  hmetis_ub_factor := .finite (-1)
  max_part_weight := defs.HypernodeWeight.max
  total_graph_weight := 0
  hyperedge_size_threshold := defs.HyperedgeID.convert (-1)
  initial_parallel_he_removal := false
  verbose_output := false
  initial_partitioner := InitialPartitioner.hMetis
  graph_filename := ""
  graph_partition_filename := ""
  coarse_graph_filename := ""
  coarse_graph_partition_filename := ""
  initial_partitioner_path := ""

/-- The constructor `FMParameters()`. -/
def Configuration.FMParameters.ctor : Configuration.FMParameters where
  max_number_of_fruitless_moves := 50
  num_repetitions := 1
  alpha := .finite 4
  beta := .finite 0
  stopping_rule := ""
  active := true

/-- The constructor `HERFMParameters()`. -/
def Configuration.HERFMParameters.ctor : Configuration.HERFMParameters where
  max_number_of_fruitless_moves := 10
  num_repetitions := 1
  stopping_rule := ""
  active := false

/-- The constructor `LPRefinementParameters()`. -/
def Configuration.LPRefinementParameters.ctor : Configuration.LPRefinementParameters where
  max_number_iterations := 3
  active := false

/-- The constructor `Configuration()`. Its initializer list names five of the six
members; the sixth, `initial_partitioning`, is of class type and is therefore
default-initialised by its own default constructor. -/
def Configuration.ctor (defs : Defs) : Configuration where
  partition := Configuration.PartitioningParameters.ctor defs
  coarsening := Configuration.CoarseningParameters.ctor
  initial_partitioning := Configuration.InitialPartitioningParameters.ctor
  fm_local_search := Configuration.FMParameters.ctor
  her_fm := Configuration.HERFMParameters.ctor
  lp_refiner := Configuration.LPRefinementParameters.ctor

/-! ## `Configuration.h`: `toString` -/

/-- The part of a `std::ostringstream` that `toString` uses: the characters written so
far, the pending field width, and the two format flags it sets. -/
structure OStream where
  buf : String
  width : Nat
  adjustLeft : Bool
  boolalpha : Bool

/-- A freshly constructed `std::ostringstream`. -/
def OStream.init : OStream := ⟨"", 0, false, false⟩

/-- The manipulator `oss << std::left`. -/
def OStream.left (oss : OStream) : OStream := { oss with adjustLeft := true }

/-- The manipulator `oss << std::boolalpha`. -/
def OStream.setBoolalpha (oss : OStream) : OStream := { oss with boolalpha := true }

/-- The manipulator `oss << std::setw(n)`. -/
def OStream.setw (oss : OStream) (n : Nat) : OStream := { oss with width := n }

/-- The text of one formatted output: `s` filled with blanks up to the pending width, on
the right when the stream is left-adjusted and on the left otherwise. Only the labels of
`toString`, which are ASCII literals, are written with a nonzero width. -/
def OStream.padded (oss : OStream) (s : String) : String :=
  if oss.adjustLeft then s ++ String.mk (List.replicate (oss.width - s.length) ' ')
  else String.mk (List.replicate (oss.width - s.length) ' ') ++ s

/-- Formatted output of a string (`oss << s`): the padded text is appended and the
width is reset to zero. -/
def OStream.put (oss : OStream) (s : String) : OStream :=
  { oss with buf := oss.buf ++ oss.padded s, width := 0 }

/-- Decimal text of an integer, as `operator<<` writes it under the default flags. -/
def showInt (i : Int) : String :=
  if i < 0 then "-" ++ Nat.repr i.natAbs else Nat.repr i.natAbs

/-- Formatted output of an integer. -/
def OStream.putInt (oss : OStream) (i : Int) : OStream := oss.put (showInt i)

/-- Formatted output of a `double`. The text the standard library produces for a double
is the parameter `showDouble`. -/
def OStream.putDouble (showDouble : Double → String) (oss : OStream) (d : Double) :
    OStream :=
  oss.put (showDouble d)

/-- Formatted output of a `bool`, which honours `boolalpha`. -/
def OStream.putBool (oss : OStream) (b : Bool) : OStream :=
  oss.put (if oss.boolalpha then (if b then "true" else "false")
    else (if b then "1" else "0"))

/-- The manipulator `oss << std::endl`: a newline character, written unformatted. -/
def OStream.endl (oss : OStream) : OStream := { oss with buf := oss.buf ++ "\n" }

/-- The member function `oss.str()`. -/
def OStream.str (oss : OStream) : String := oss.buf

/-- The name printed for the initial partitioner: the conditional expression
`initial_partitioner == InitialPartitioner::hMetis ? "hMetis" : "PaToH"`. -/
def initialPartitionerName (p : InitialPartitioner) : String :=
  if p = InitialPartitioner.hMetis then "hMetis" else "PaToH"

/-- The function `toString(const Configuration&)`, statement by statement. -/
def toString (showDouble : Double → String) (config : Configuration) : String :=
  let oss := OStream.init
  let oss := oss.left
  let oss := (oss.put "Partitioning Parameters:").endl
  let oss := (((oss.setw 35).put "  Hypergraph: ").put config.partition.graph_filename).endl
  let oss := (((oss.setw 35).put "  Partition File: ").put
    config.partition.graph_partition_filename).endl
  let oss := (((oss.setw 35).put "  Coarsened Hypergraph: ").put
    config.partition.coarse_graph_filename).endl
  let oss := (((oss.setw 35).put "  Coarsened Partition File: ").put
    config.partition.coarse_graph_partition_filename).endl
  let oss := (((oss.setw 35).put "  k: ").putInt config.partition.k).endl
  let oss := (((oss.setw 35).put "  epsilon: ").putDouble showDouble
    config.partition.epsilon).endl
  let oss := (((oss.setw 35).put "  total_graph_weight: ").putInt
    config.partition.total_graph_weight).endl
  let oss := (((oss.setw 35).put "  L_max: ").putInt config.partition.max_part_weight).endl
  let oss := (((oss.setw 35).put "  seed: ").putInt config.partition.seed).endl
  let oss := (((oss.setw 35).put "  hmetis_ub_factor: ").putDouble showDouble
    config.partition.hmetis_ub_factor).endl
  let oss := (((oss.setw 35).put "  # initial partitionings: ").putInt
    config.partition.initial_partitioning_attempts).endl
  let oss := (((oss.setw 35).put "   initial partitioner: ").put
    (initialPartitionerName config.partition.initial_partitioner)).endl
  let oss := (((oss.setw 35).put "   initial partitioner path: ").put
    config.partition.initial_partitioner_path).endl
  let oss := (((oss.setw 35).put "  # global search iterations: ").putInt
    config.partition.global_search_iterations).endl
  let oss := (((oss.setw 35).put "  hyperedge size threshold: ").putInt
    config.partition.hyperedge_size_threshold).endl
  let oss := ((((oss.setw 35).put "  initially remove parallel HEs: ").setBoolalpha).putBool
    config.partition.initial_parallel_he_removal).endl
  let oss := (oss.put "Coarsening Parameters:").endl
  let oss := (((oss.setw 35).put "  scheme: ").put config.coarsening.scheme).endl
  let oss := (((oss.setw 35).put "  max-allowed-weight-multiplier: ").putDouble showDouble
    config.coarsening.max_allowed_weight_multiplier).endl
  let oss := (((oss.setw 35).put "  contraction-limit-multiplier: ").putInt
    config.coarsening.contraction_limit_multiplier).endl
  let oss := (((oss.setw 35).put "  hypernode weight fraction: ").putDouble showDouble
    config.coarsening.hypernode_weight_fraction).endl
  let oss := (((oss.setw 35).put "  max. allowed hypernode weight: ").putInt
    config.coarsening.max_allowed_node_weight).endl
  let oss := (((oss.setw 35).put "  contraction limit: ").putInt
    config.coarsening.contraction_limit).endl
  let oss :=
    if config.fm_local_search.active then
      let oss := (oss.put "FM Refinement Parameters:").endl
      let oss := (((oss.setw 35).put "  stopping rule: ").put
        config.fm_local_search.stopping_rule).endl
      let oss := (((oss.setw 35).put "  max. # repetitions: ").putInt
        config.fm_local_search.num_repetitions).endl
      let oss := (((oss.setw 35).put "  max. # fruitless moves: ").putInt
        config.fm_local_search.max_number_of_fruitless_moves).endl
      let oss := (((oss.setw 35).put "  random walk stop alpha: ").putDouble showDouble
        config.fm_local_search.alpha).endl
      let oss := (((oss.setw 35).put "  random walk stop beta : ").putDouble showDouble
        config.fm_local_search.beta).endl
      oss
    else oss
  let oss :=
    if config.her_fm.active then
      let oss := (oss.put "HER-FM Refinement Parameters:").endl
      let oss := (((oss.setw 35).put "  stopping rule: ").put
        config.her_fm.stopping_rule).endl
      let oss := (((oss.setw 35).put "  max. # repetitions: ").putInt
        config.her_fm.num_repetitions).endl
      let oss := (((oss.setw 35).put "  max. # fruitless moves: ").putInt
        config.her_fm.max_number_of_fruitless_moves).endl
      oss
    else oss
  let oss :=
    if config.lp_refiner.active then
      let oss := (oss.put "LP Refinement Parameters:").endl
      let oss := (((oss.setw 35).put "  max. # iterations: ").putInt
        config.lp_refiner.max_number_iterations).endl
      oss
    else oss
  oss.str

/-! ## The blocks of the `toString` output -/

/-- One parameter line: the label left-adjusted in a field of 35 characters, the value,
and a newline. -/
def entry (label value : String) : String :=
  label ++ String.mk (List.replicate (35 - label.length) ' ') ++ value ++ "\n"

/-- The lines of the partitioning block that precede the initial-partitioner line. -/
def partitioningBlockHead (showDouble : Double → String) (config : Configuration) :
    String :=
  "Partitioning Parameters:" ++ "\n"
    ++ entry "  Hypergraph: " config.partition.graph_filename
    ++ entry "  Partition File: " config.partition.graph_partition_filename
    ++ entry "  Coarsened Hypergraph: " config.partition.coarse_graph_filename
    ++ entry "  Coarsened Partition File: " config.partition.coarse_graph_partition_filename
    ++ entry "  k: " (showInt config.partition.k)
    ++ entry "  epsilon: " (showDouble config.partition.epsilon)
    ++ entry "  total_graph_weight: " (showInt config.partition.total_graph_weight)
    ++ entry "  L_max: " (showInt config.partition.max_part_weight)
    ++ entry "  seed: " (showInt config.partition.seed)
    ++ entry "  hmetis_ub_factor: " (showDouble config.partition.hmetis_ub_factor)
    ++ entry "  # initial partitionings: "
        (showInt config.partition.initial_partitioning_attempts)

/-- The initial-partitioner line with a given partitioner name. -/
def initialPartitionerLine (name : String) : String :=
  entry "   initial partitioner: " name

/-- The lines of the partitioning block that follow the initial-partitioner line. -/
def partitioningBlockTail (config : Configuration) : String :=
  entry "   initial partitioner path: " config.partition.initial_partitioner_path
    ++ entry "  # global search iterations: "
        (showInt config.partition.global_search_iterations)
    ++ entry "  hyperedge size threshold: " (showInt config.partition.hyperedge_size_threshold)
    ++ entry "  initially remove parallel HEs: "
        (if config.partition.initial_parallel_he_removal then "true" else "false")

/-- The "Partitioning Parameters:" block. -/
def partitioningBlock (showDouble : Double → String) (config : Configuration) : String :=
  partitioningBlockHead showDouble config
    ++ initialPartitionerLine (initialPartitionerName config.partition.initial_partitioner)
    ++ partitioningBlockTail config

/-- The "Coarsening Parameters:" block. -/
def coarseningBlock (showDouble : Double → String) (config : Configuration) : String :=
  "Coarsening Parameters:" ++ "\n"
    ++ entry "  scheme: " config.coarsening.scheme
    ++ entry "  max-allowed-weight-multiplier: "
        (showDouble config.coarsening.max_allowed_weight_multiplier)
    ++ entry "  contraction-limit-multiplier: "
        (showInt config.coarsening.contraction_limit_multiplier)
    ++ entry "  hypernode weight fraction: "
        (showDouble config.coarsening.hypernode_weight_fraction)
    ++ entry "  max. allowed hypernode weight: "
        (showInt config.coarsening.max_allowed_node_weight)
    ++ entry "  contraction limit: " (showInt config.coarsening.contraction_limit)

/-- The "FM Refinement Parameters:" block. -/
def fmBlock (showDouble : Double → String) (config : Configuration) : String :=
  "FM Refinement Parameters:" ++ "\n"
    ++ entry "  stopping rule: " config.fm_local_search.stopping_rule
    ++ entry "  max. # repetitions: " (showInt config.fm_local_search.num_repetitions)
    ++ entry "  max. # fruitless moves: "
        (showInt config.fm_local_search.max_number_of_fruitless_moves)
    ++ entry "  random walk stop alpha: " (showDouble config.fm_local_search.alpha)
    ++ entry "  random walk stop beta : " (showDouble config.fm_local_search.beta)

/-- The "HER-FM Refinement Parameters:" block. -/
def herFmBlock (config : Configuration) : String :=
  "HER-FM Refinement Parameters:" ++ "\n"
    ++ entry "  stopping rule: " config.her_fm.stopping_rule
    ++ entry "  max. # repetitions: " (showInt config.her_fm.num_repetitions)
    ++ entry "  max. # fruitless moves: "
        (showInt config.her_fm.max_number_of_fruitless_moves)

/-- The "LP Refinement Parameters:" block. -/
def lpBlock (config : Configuration) : String :=
  "LP Refinement Parameters:" ++ "\n"
    ++ entry "  max. # iterations: " (showInt config.lp_refiner.max_number_iterations)

/-- A block that is written only when its refiner is active. -/
def blockIf (active : Bool) (block : String) : String :=
  if active then block else ""

/-- Two configurations agree on everything `toString` is claimed to depend on: all of
`partition` except `current_v_cycle` and `verbose_output`, all of `coarsening`, the
three `active` flags, and the remaining parameters of each refiner that is active.
Nothing is required of `initial_partitioning`. -/
def agreeOnPrinted (c₁ c₂ : Configuration) : Prop :=
  { c₁.partition with current_v_cycle := 0, verbose_output := false }
      = { c₂.partition with current_v_cycle := 0, verbose_output := false }
    ∧ c₁.coarsening = c₂.coarsening
    ∧ c₁.fm_local_search.active = c₂.fm_local_search.active
    ∧ (c₁.fm_local_search.active = true → c₁.fm_local_search = c₂.fm_local_search)
    ∧ c₁.her_fm.active = c₂.her_fm.active
    ∧ (c₁.her_fm.active = true → c₁.her_fm = c₂.her_fm)
    ∧ c₁.lp_refiner.active = c₂.lp_refiner.active
    ∧ (c₁.lp_refiner.active = true → c₁.lp_refiner = c₂.lp_refiner)

/-! ## `factories.h`: factory signatures and registration lambdas -/

/-- How a C++ function parameter is passed. -/
inductive Passing where
  | value
  | constValue
  | reference
  | constReference
  deriving DecidableEq

/-- A function parameter: the name of its type and the way it is passed. -/
structure Parameter where
  type : String
  passing : Passing
  deriving DecidableEq

/-- The signature of a function pointer type or of a lambda. -/
structure Signature where
  result : String
  parameters : List Parameter
  deriving DecidableEq

/-- An instance `Factory<Identifier, Creator>` of the abstract factory template: the
type of its keys and the signature of the creator functions it stores. -/
structure Factory where
  identifier : String
  creator : Signature
  deriving DecidableEq

/-- The alias `using CoarsenerFactory = Factory<CoarseningAlgorithm,
ICoarsener* (*)(Hypergraph&, const Configuration&, const HypernodeWeight)>`. -/
def CoarsenerFactory : Factory :=
  ⟨"CoarseningAlgorithm",
    ⟨"ICoarsener*", [⟨"Hypergraph", .reference⟩, ⟨"Configuration", .constReference⟩,
      ⟨"HypernodeWeight", .constValue⟩]⟩⟩

/-- The alias `using RefinerFactory = Factory<RefinementAlgorithm,
IRefiner* (*)(Hypergraph&, const Configuration&)>`. -/
def RefinerFactory : Factory :=
  ⟨"RefinementAlgorithm",
    ⟨"IRefiner*", [⟨"Hypergraph", .reference⟩, ⟨"Configuration", .constReference⟩]⟩⟩

/-- The alias `using InitialPartitioningFactory = Factory<InitialPartitionerAlgorithm,
IInitialPartitioner* (*)(Hypergraph&, Configuration&)>`. -/
def InitialPartitioningFactory : Factory :=
  ⟨"InitialPartitionerAlgorithm",
    ⟨"IInitialPartitioner*", [⟨"Hypergraph", .reference⟩, ⟨"Configuration", .reference⟩]⟩⟩

/-- What a registration macro expands to: a registrar for one factory, given the key,
the lambda it registers, and the class whose constructor the lambda calls with the
lambda's own parameters. -/
structure Registrar where
  factory : Factory
  id : String
  lambda : Signature
  constructs : String
  deriving DecidableEq

/-- The macro `REGISTER_COARSENER(id, coarsener)`. -/
def REGISTER_COARSENER (id coarsener : String) : Registrar where
  factory := CoarsenerFactory
  id := id
  lambda := ⟨"ICoarsener*", [⟨"Hypergraph", .reference⟩, ⟨"Configuration", .constReference⟩,
    ⟨"HypernodeWeight", .constValue⟩]⟩
  constructs := coarsener

/-- The macro `REGISTER_INITIAL_PARTITIONER(id, ip)`. -/
def REGISTER_INITIAL_PARTITIONER (id ip : String) : Registrar where
  factory := InitialPartitioningFactory
  id := id
  lambda := ⟨"IInitialPartitioner*", [⟨"Hypergraph", .reference⟩,
    ⟨"Configuration", .reference⟩]⟩
  constructs := ip

/-- The ways in which a signature passes its parameters of type `Configuration`, in the
order of the parameter list. -/
def Signature.configPassing (s : Signature) : List Passing :=
  (s.parameters.filter fun p => decide (p.type = "Configuration")).map Parameter.passing

/-- A signature takes the configuration by const reference: it has a parameter of type
`Configuration`, and every such parameter is declared `const Configuration&`. -/
def Signature.configByConstReference (s : Signature) : Prop :=
  s.configPassing ≠ [] ∧ ∀ p ∈ s.configPassing, p = Passing.constReference

/-! ## `factories.h`: policy typelists and refiner dispatchers -/

/-- A `Typelist<...>`: the list of its entries. -/
abbrev Typelist (α : Type) : Type := List α

/-- The alias `using StoppingPolicyClasses = Typelist<...>`, the entries given by class name. -/
def StoppingPolicyClasses : Typelist String :=
  ["NumberOfFruitlessMovesStopsSearch",
   "AdvancedRandomWalkModelStopsSearch",
   "RandomWalkModelStopsSearch",
   "nGPRandomWalkStopsSearch"]

/-- The alias `using RebalancingPolicyClasses = Typelist<GlobalRebalancing, NoGlobalRebalancing>`. -/
def RebalancingPolicyClasses : Typelist String :=
  ["GlobalRebalancing", "NoGlobalRebalancing"]

/-- An instance `StaticMultiDispatchFactory<Product, BaseProduct, Typelist<...>>`: the
refiner template, the interface it is returned as, and one typelist per dispatch
dimension. -/
structure StaticMultiDispatchFactory where
  product : String
  baseProduct : String
  policies : Typelist (Typelist String)
  deriving DecidableEq

/-- The alias `using TwoWayFMFactoryDispatcher = ...`. -/
def TwoWayFMFactoryDispatcher : StaticMultiDispatchFactory :=
  ⟨"TwoWayFMRefiner", "IRefiner", [StoppingPolicyClasses, RebalancingPolicyClasses]⟩

/-- The alias `using KWayFMFactoryDispatcher = ...`. -/
def KWayFMFactoryDispatcher : StaticMultiDispatchFactory :=
  ⟨"KWayFMRefiner", "IRefiner", [StoppingPolicyClasses]⟩

/-- The alias `using KWayKMinusOneFactoryDispatcher = ...`. -/
def KWayKMinusOneFactoryDispatcher : StaticMultiDispatchFactory :=
  ⟨"KWayKMinusOneRefiner", "IRefiner", [StoppingPolicyClasses]⟩

/-- The refiner dispatchers that `factories.h` defines (the max-gain-node one is
commented out there). -/
def refinerDispatchers : List StaticMultiDispatchFactory :=
  [TwoWayFMFactoryDispatcher, KWayFMFactoryDispatcher, KWayKMinusOneFactoryDispatcher]

/-- All ways of choosing one entry from each typelist, in order. -/
def policyCombinations : Typelist (Typelist String) → List (List String)
  | [] => [[]]
  | dimension :: rest =>
      dimension.foldr (fun p acc => (policyCombinations rest).map (p :: ·) ++ acc) []

/-- Modelled from the spec: the template `StaticMultiDispatchFactory` of
`meta/static_multi_dispatch_factory.h` is not among the sources. The specification
(section 9) describes it as generating one concrete class per combination of refiner,
stopping policy and rebalancing policy; so the classes a dispatcher ranges over are the
combinations of one entry per dimension. -/
def StaticMultiDispatchFactory.combinations (d : StaticMultiDispatchFactory) :
    List (List String) :=
  policyCombinations d.policies

/-- Modelled from the spec: creating a refiner through a dispatcher, for the policies
selected at run time. It yields the refiner template instantiated with these policies
when they form one of the dispatcher's combinations, and nothing otherwise. -/
def StaticMultiDispatchFactory.create (d : StaticMultiDispatchFactory)
    (selected : List String) : Option (String × List String) :=
  if selected ∈ d.combinations then some (d.product, selected) else none

/-! ## `factories.h`: coarsener aliases -/

/-- An instance `Rater<RatingType, TieBreakingPolicy>` of the rater template. -/
structure Rater where
  ratingType : String
  tieBreakingPolicy : String
  deriving DecidableEq

/-- A coarsener template instantiated with a rater. -/
structure CoarsenerClass where
  strategy : String
  rater : Rater
  deriving DecidableEq

/-- The alias `using RandomWinsRater = Rater<RatingType, RandomRatingWins>`. -/
def RandomWinsRater : Rater := ⟨"RatingType", "RandomRatingWins"⟩

/-- The alias `using RandomWinsFullCoarsener = FullVertexPairCoarsener<RandomWinsRater>`. -/
def RandomWinsFullCoarsener : CoarsenerClass := ⟨"FullVertexPairCoarsener", RandomWinsRater⟩

/-- The alias `using RandomWinsLazyUpdateCoarsener = LazyVertexPairCoarsener<RandomWinsRater>`. -/
def RandomWinsLazyUpdateCoarsener : CoarsenerClass :=
  ⟨"LazyVertexPairCoarsener", RandomWinsRater⟩

/-- The alias `using RandomWinsMLCoarsener = MLCoarsener<RandomWinsRater>`. -/
def RandomWinsMLCoarsener : CoarsenerClass := ⟨"MLCoarsener", RandomWinsRater⟩

/-- A configuration that differs from the default one only in fields `toString` does not
read: `initial_partitioning`, `current_v_cycle`, `verbose_output`, and parameters of the
two refiners that are inactive by default. -/
def Configuration.sample : Configuration :=
  { Configuration.ctor Defs.int32 with
    partition := { (Configuration.ctor Defs.int32).partition with
      current_v_cycle := 3, verbose_output := true }
    initial_partitioning := { (Configuration.ctor Defs.int32).initial_partitioning with
      k := 7, seed := 42 }
    her_fm := { (Configuration.ctor Defs.int32).her_fm with
      max_number_of_fruitless_moves := 99, stopping_rule := "simple" }
    lp_refiner := { (Configuration.ctor Defs.int32).lp_refiner with
      max_number_iterations := 8 } }

/-! ## Notions taken from the specification -/

/-- The balance bound as the specification writes it:
`max_part_weight = (1+ε)·⌈total_weight / k⌉`. -/
def specMaxPartWeight (epsilon : ℚ) (total_graph_weight k : Int) : ℚ :=
  (1 + epsilon) * ((⌈(total_graph_weight : ℚ) / (k : ℚ)⌉ : Int) : ℚ)

/-- The stored `partition.max_part_weight` of a record equals the specification's bound
computed from the same record's `epsilon`, `total_graph_weight` and `k`. -/
def maxPartWeightIsDerived (config : Configuration) : Prop :=
  match config.partition.epsilon with
  | .finite e =>
      (config.partition.max_part_weight : ℚ)
        = specMaxPartWeight e config.partition.total_graph_weight config.partition.k
  | _ => False

/-- A header line written to a left-adjusted stream with no pending width. -/
theorem OStream.header_line (buf : String) (b : Bool) (s : String) :
    ((OStream.mk buf 0 true b).put s).endl = OStream.mk (buf ++ (s ++ "\n")) 0 true b := by
  simp [OStream.put, OStream.endl, OStream.padded, String.append_assoc]

/-- A parameter line with a string value. -/
theorem OStream.string_line (buf : String) (b : Bool) (label v : String) :
    ((((OStream.mk buf 0 true b).setw 35).put label).put v).endl
      = OStream.mk (buf ++ entry label v) 0 true b := by
  simp [OStream.put, OStream.endl, OStream.padded, OStream.setw, entry, String.append_assoc]

/-- A parameter line with an integer value. -/
theorem OStream.int_line (buf : String) (b : Bool) (label : String) (v : Int) :
    ((((OStream.mk buf 0 true b).setw 35).put label).putInt v).endl
      = OStream.mk (buf ++ entry label (showInt v)) 0 true b :=
  OStream.string_line buf b label (showInt v)

/-- A parameter line with a double value. -/
theorem OStream.double_line (showDouble : Double → String) (buf : String) (b : Bool)
    (label : String) (v : Double) :
    ((((OStream.mk buf 0 true b).setw 35).put label).putDouble showDouble v).endl
      = OStream.mk (buf ++ entry label (showDouble v)) 0 true b :=
  OStream.string_line buf b label (showDouble v)

/-- A parameter line with a boolean value, written after `boolalpha` is set. -/
theorem OStream.bool_line (buf : String) (b : Bool) (label : String) (v : Bool) :
    (((((OStream.mk buf 0 true b).setw 35).put label).setBoolalpha).putBool v).endl
      = OStream.mk (buf ++ entry label (if v then "true" else "false")) 0 true true := by
  simp [OStream.put, OStream.putBool, OStream.setBoolalpha, OStream.endl, OStream.padded,
    OStream.setw, entry, String.append_assoc]

set_option maxRecDepth 4000 in
/-- The stream-based `toString` is the concatenation of its blocks. -/
theorem toString_eq_blocks (showDouble : Double → String) (config : Configuration) :
    toString showDouble config
      = partitioningBlock showDouble config ++ coarseningBlock showDouble config
        ++ blockIf config.fm_local_search.active (fmBlock showDouble config)
        ++ blockIf config.her_fm.active (herFmBlock config)
        ++ blockIf config.lp_refiner.active (lpBlock config) := by
  unfold toString
  simp only [OStream.init, OStream.left, OStream.header_line, OStream.string_line,
    OStream.int_line, OStream.double_line, OStream.bool_line]
  cases config.fm_local_search.active <;> cases config.her_fm.active <;>
    cases config.lp_refiner.active <;>
    simp [OStream.header_line, OStream.string_line,
      OStream.int_line, OStream.double_line, OStream.str, partitioningBlock, partitioningBlockHead,
      initialPartitionerLine, partitioningBlockTail, coarseningBlock, fmBlock, herFmBlock,
      lpBlock, blockIf, String.append_assoc]

/-- An integer type of at least two bits has a positive maximum. -/
theorem IntType.max_pos (t : IntType) (h : 2 ≤ t.bits) : 0 < t.max := by
  have h1 : (2 : Int) ^ 1 ≤ 2 ^ (t.bits - 1) := pow_le_pow_right₀ (by norm_num) (by omega)
  have h2 : (2 : Int) ^ 1 ≤ 2 ^ t.bits := pow_le_pow_right₀ (by norm_num) (by omega)
  unfold IntType.max
  split <;> omega

/-- The double of the literal `0.05` lies within `10^(-17)` of one twentieth. -/
theorem Double.lit_0_05_near :
    ∃ q : ℚ, Double.lit_0_05 = Double.finite q ∧ |q - 1 / 20| < 1 / 10 ^ 17 := by
  refine ⟨_, rfl, ?_⟩
  rw [abs_lt]
  constructor <;> norm_num

/-- Every field of the partitioning record that `toString` prints is determined by the
record with `current_v_cycle` and `verbose_output` reset. -/
theorem partitioningBlock_congr (showDouble : Double → String) (c₁ c₂ : Configuration)
    (h : { c₁.partition with current_v_cycle := 0, verbose_output := false }
      = { c₂.partition with current_v_cycle := 0, verbose_output := false }) :
    partitioningBlock showDouble c₁ = partitioningBlock showDouble c₂ := by
  simp only [Configuration.PartitioningParameters.mk.injEq] at h
  obtain ⟨h1, h2, h3, h4, -, h6, h7, h8, h9, h10, h11, -, h13, h14, h15, h16, h17, h18⟩ := h
  simp only [partitioningBlock, partitioningBlockHead, partitioningBlockTail, h1, h2, h3, h4,
    h6, h7, h8, h9, h10, h11, h13, h14, h15, h16, h17, h18]

/-! ## C1: the stored `max_part_weight` of a constructed configuration -/

/-- C1 (counterexample): for the default-constructed Configuration (here with 32-bit signed
hypernode weights) the stored `partition.max_part_weight` is not
`(1 + epsilon) * ceil(total_graph_weight / k)` of the same record. -/
theorem C1_default_max_part_weight_not_derived :
    ¬ maxPartWeightIsDerived (Configuration.ctor Defs.int32) := by
  simp [maxPartWeightIsDerived, Configuration.ctor, Configuration.PartitioningParameters.ctor,
    specMaxPartWeight, Defs.int32, IntType.max]

/-- C1 (amended): the default constructor stores the placeholder
`std::numeric_limits<HypernodeWeight>::max()` in `partition.max_part_weight`, next to
`epsilon = 1.0`, `total_graph_weight = 0` and `k = 2`, for which the specification's
bound `(1 + epsilon) * ceil(total_graph_weight / k)` is 0; the stored value equals the
bound exactly when that maximum is 0. -/
theorem C1_default_max_part_weight_is_placeholder (defs : Defs) :
    (Configuration.ctor defs).partition.max_part_weight = defs.HypernodeWeight.max
      ∧ (Configuration.ctor defs).partition.epsilon = Double.finite 1
      ∧ (Configuration.ctor defs).partition.total_graph_weight = 0
      ∧ (Configuration.ctor defs).partition.k = 2
      ∧ specMaxPartWeight 1 0 2 = 0
      ∧ (maxPartWeightIsDerived (Configuration.ctor defs) ↔ defs.HypernodeWeight.max = 0) := by
  refine ⟨rfl, rfl, rfl, rfl, ?_, ?_⟩
  · simp [specMaxPartWeight]
  · simp [maxPartWeightIsDerived, Configuration.ctor,
      Configuration.PartitioningParameters.ctor, specMaxPartWeight]

/-! ## C2, C3: stopping policies and dispatch dimensions -/

/-- C2: `StoppingPolicyClasses` has exactly four entries, no entry twice, and its entries
are exactly the number-of-fruitless-moves, plain random-walk, advanced random-walk and
nGP random-walk policies. -/
theorem C2_stopping_policy_classes :
    StoppingPolicyClasses.length = 4
      ∧ StoppingPolicyClasses.Nodup
      ∧ ∀ p : String, p ∈ StoppingPolicyClasses ↔
          (p = "NumberOfFruitlessMovesStopsSearch" ∨ p = "RandomWalkModelStopsSearch"
            ∨ p = "AdvancedRandomWalkModelStopsSearch" ∨ p = "nGPRandomWalkStopsSearch") := by
  refine ⟨rfl, by decide, ?_⟩
  intro p
  simp only [StoppingPolicyClasses, List.mem_cons, List.mem_singleton, List.not_mem_nil,
    or_false]
  tauto

/-- C3: among the refiner dispatchers, the rebalancing typelist is a dispatch dimension
exactly of `TwoWayFMFactoryDispatcher`; that dispatcher ranges over exactly the pairs of
one of the 4 stopping policies and one of the 2 rebalancing policies, 8 combinations
without repetition, each of which `create` reaches; the two k-way dispatchers range over
the 4 stopping policies alone. -/
theorem C3_rebalancing_is_a_dimension_of_two_way_fm_only :
    (∀ d : StaticMultiDispatchFactory,
        (d ∈ refinerDispatchers ∧ RebalancingPolicyClasses ∈ d.policies)
          ↔ d = TwoWayFMFactoryDispatcher)
      ∧ TwoWayFMFactoryDispatcher.policies = [StoppingPolicyClasses, RebalancingPolicyClasses]
      ∧ RebalancingPolicyClasses = ["GlobalRebalancing", "NoGlobalRebalancing"]
      ∧ (∀ c : List String, c ∈ TwoWayFMFactoryDispatcher.combinations ↔
          ∃ s r, c = [s, r] ∧ s ∈ StoppingPolicyClasses ∧ r ∈ RebalancingPolicyClasses)
      ∧ TwoWayFMFactoryDispatcher.combinations.length = 8
      ∧ TwoWayFMFactoryDispatcher.combinations.Nodup
      ∧ (∀ s r : String, (s ∈ StoppingPolicyClasses ∧ r ∈ RebalancingPolicyClasses) ↔
          TwoWayFMFactoryDispatcher.create [s, r] = some ("TwoWayFMRefiner", [s, r]))
      ∧ KWayFMFactoryDispatcher.policies = [StoppingPolicyClasses]
      ∧ KWayKMinusOneFactoryDispatcher.policies = [StoppingPolicyClasses]
      ∧ KWayFMFactoryDispatcher.combinations = StoppingPolicyClasses.map (fun s => [s])
      ∧ KWayKMinusOneFactoryDispatcher.combinations
          = StoppingPolicyClasses.map (fun s => [s])
      ∧ KWayFMFactoryDispatcher.combinations.length = 4
      ∧ KWayKMinusOneFactoryDispatcher.combinations.length = 4 := by
  have hc : ∀ c : List String, c ∈ TwoWayFMFactoryDispatcher.combinations ↔
      ∃ s r, c = [s, r] ∧ s ∈ StoppingPolicyClasses ∧ r ∈ RebalancingPolicyClasses := by
    intro c
    simp only [StaticMultiDispatchFactory.combinations, TwoWayFMFactoryDispatcher,
      StoppingPolicyClasses, RebalancingPolicyClasses, policyCombinations, List.foldr,
      List.map, List.append, List.cons_append, List.nil_append, List.append_nil,
      List.mem_cons, List.mem_singleton, List.not_mem_nil, or_false]
    constructor
    · rintro (h | h | h | h | h | h | h | h) <;> subst h <;> exact ⟨_, _, rfl, by simp⟩
    · rintro ⟨s, r, rfl, hs | hs | hs | hs, hr | hr⟩ <;> subst hs <;> subst hr <;> simp
  refine ⟨?_, rfl, rfl, hc, rfl, by decide, ?_, rfl, rfl, rfl, rfl, rfl, rfl⟩
  · intro d
    constructor
    · rintro ⟨hd, hr⟩
      simp only [refinerDispatchers, List.mem_cons, List.mem_singleton, List.not_mem_nil,
        or_false] at hd
      rcases hd with rfl | rfl | rfl
      · rfl
      · exact absurd hr (by decide)
      · exact absurd hr (by decide)
    · rintro rfl
      exact ⟨by decide, by decide⟩
  · intro s r
    simp only [StaticMultiDispatchFactory.create]
    constructor
    · intro h
      rw [if_pos ((hc [s, r]).2 ⟨s, r, rfl, h.1, h.2⟩)]
      rfl
    · intro h
      by_cases hm : [s, r] ∈ TwoWayFMFactoryDispatcher.combinations
      · obtain ⟨s', r', he, hs, hr⟩ := (hc [s, r]).1 hm
        simp only [List.cons.injEq, and_true] at he
        obtain ⟨rfl, rfl⟩ := he
        exact ⟨hs, hr⟩
      · rw [if_neg hm] at h
        exact absurd h (by simp)

/-! ## C4: how the factories pass the configuration -/

/-- C4 (counterexample): the creator signature of `InitialPartitioningFactory` does not take
the configuration by const reference, and neither does the lambda of
`REGISTER_INITIAL_PARTITIONER`: each has one `Configuration` parameter, declared as the
non-const reference `Configuration&`. -/
theorem C4_initial_partitioner_gets_mutable_configuration :
    ¬ InitialPartitioningFactory.creator.configByConstReference
      ∧ ¬ (REGISTER_INITIAL_PARTITIONER "id" "ip").lambda.configByConstReference
      ∧ InitialPartitioningFactory.creator.configPassing = [Passing.reference]
      ∧ (REGISTER_INITIAL_PARTITIONER "id" "ip").lambda.configPassing
          = [Passing.reference] := by
  refine ⟨?_, ?_, rfl, rfl⟩
  · rintro ⟨-, h⟩
    exact absurd (h Passing.reference (by decide)) (by decide)
  · rintro ⟨-, h⟩
    exact absurd (h Passing.reference (by decide)) (by decide)

/-- C4 (amended): the creator signatures of `CoarsenerFactory` and `RefinerFactory` and
the lambda of `REGISTER_COARSENER` each have exactly one `Configuration` parameter and
take it by const reference; the creator signature of `InitialPartitioningFactory` and the
lambda of `REGISTER_INITIAL_PARTITIONER` each have exactly one `Configuration` parameter
and take it by non-const reference; each registration lambda has the creator signature
of the factory it registers with. -/
theorem C4_configuration_passing (id cls : String) :
    CoarsenerFactory.creator.configByConstReference
      ∧ RefinerFactory.creator.configByConstReference
      ∧ (REGISTER_COARSENER id cls).lambda.configByConstReference
      ∧ CoarsenerFactory.creator.configPassing = [Passing.constReference]
      ∧ RefinerFactory.creator.configPassing = [Passing.constReference]
      ∧ (REGISTER_COARSENER id cls).lambda.configPassing = [Passing.constReference]
      ∧ (REGISTER_COARSENER id cls).factory = CoarsenerFactory
      ∧ (REGISTER_COARSENER id cls).lambda = CoarsenerFactory.creator
      ∧ InitialPartitioningFactory.creator.configPassing = [Passing.reference]
      ∧ (REGISTER_INITIAL_PARTITIONER id cls).lambda.configPassing = [Passing.reference]
      ∧ (REGISTER_INITIAL_PARTITIONER id cls).factory = InitialPartitioningFactory
      ∧ (REGISTER_INITIAL_PARTITIONER id cls).lambda = InitialPartitioningFactory.creator
      ∧ ¬ InitialPartitioningFactory.creator.configByConstReference
      ∧ ¬ (REGISTER_INITIAL_PARTITIONER id cls).lambda.configByConstReference := by
  have hc : CoarsenerFactory.creator.configPassing = [Passing.constReference] := rfl
  have hr : RefinerFactory.creator.configPassing = [Passing.constReference] := rfl
  have hi : InitialPartitioningFactory.creator.configPassing = [Passing.reference] := rfl
  have hl : (REGISTER_COARSENER id cls).lambda = CoarsenerFactory.creator := rfl
  have hm : (REGISTER_INITIAL_PARTITIONER id cls).lambda
      = InitialPartitioningFactory.creator := rfl
  have hconst : ∀ s : Signature, s.configPassing = [Passing.constReference] →
      s.configByConstReference := by
    intro s hs
    refine ⟨by simp [hs], ?_⟩
    intro p hp
    rw [hs] at hp
    simpa using hp
  have hmut : ∀ s : Signature, s.configPassing = [Passing.reference] →
      ¬ s.configByConstReference := by
    rintro s hs ⟨-, h⟩
    exact absurd (h Passing.reference (by simp [hs])) (by decide)
  exact ⟨hconst _ hc, hconst _ hr, hconst _ (hl ▸ hc), hc, hr, hl ▸ hc, rfl, hl, hi,
    hm ▸ hi, rfl, hm, hmut _ hi, hmut _ (hm ▸ hi)⟩

/-! ## C5: the coarsener aliases -/

/-- C5: the full, lazy-update and ML coarsener aliases are instantiated with one and the
same rater, `RandomWinsRater = Rater<RatingType, RandomRatingWins>`, and are the three
distinct coarsener templates; two of the aliases are equal as soon as their coarsener
strategies are. -/
theorem C5_coarsener_aliases_share_the_rater :
    RandomWinsFullCoarsener.rater = RandomWinsRater
      ∧ RandomWinsLazyUpdateCoarsener.rater = RandomWinsRater
      ∧ RandomWinsMLCoarsener.rater = RandomWinsRater
      ∧ RandomWinsRater = ⟨"RatingType", "RandomRatingWins"⟩
      ∧ RandomWinsFullCoarsener.strategy = "FullVertexPairCoarsener"
      ∧ RandomWinsLazyUpdateCoarsener.strategy = "LazyVertexPairCoarsener"
      ∧ RandomWinsMLCoarsener.strategy = "MLCoarsener"
      ∧ [RandomWinsFullCoarsener.strategy, RandomWinsLazyUpdateCoarsener.strategy,
          RandomWinsMLCoarsener.strategy].Nodup
      ∧ (∀ a b : CoarsenerClass,
          (a ∈ [RandomWinsFullCoarsener, RandomWinsLazyUpdateCoarsener, RandomWinsMLCoarsener]
            ∧ b ∈ [RandomWinsFullCoarsener, RandomWinsLazyUpdateCoarsener,
                RandomWinsMLCoarsener]
            ∧ a.strategy = b.strategy)
          ↔ (a = b ∧ a ∈ [RandomWinsFullCoarsener, RandomWinsLazyUpdateCoarsener,
                RandomWinsMLCoarsener])) := by
  refine ⟨rfl, rfl, rfl, rfl, rfl, rfl, rfl, by decide, ?_⟩
  intro a b
  constructor
  · rintro ⟨ha, hb, hs⟩
    refine ⟨?_, ha⟩
    simp only [List.mem_cons, List.mem_singleton, List.not_mem_nil, or_false] at ha hb
    rcases ha with rfl | rfl | rfl <;> rcases hb with rfl | rfl | rfl <;>
      first
        | rfl
        | exact absurd hs (by decide)
  · rintro ⟨rfl, ha⟩
    exact ⟨ha, ha, rfl⟩

/-! ## C6: the default configuration is feasible -/

/-- C7: for every Configuration, `toString` is the partitioning block followed by the
coarsening block, followed in this order by the FM block when `fm_local_search.active`
and nothing otherwise, the HER-FM block when `her_fm.active` and nothing otherwise, and
the LP block when `lp_refiner.active` and nothing otherwise; for the default-constructed
Configuration this is the partitioning, coarsening and FM blocks and nothing else. -/
theorem C7_toString_is_its_blocks (showDouble : Double → String) (config : Configuration) :
    toString showDouble config
        = partitioningBlock showDouble config ++ coarseningBlock showDouble config
          ++ (if config.fm_local_search.active then fmBlock showDouble config else "")
          ++ (if config.her_fm.active then herFmBlock config else "")
          ++ (if config.lp_refiner.active then lpBlock config else "")
      ∧ ∀ defs : Defs,
          (Configuration.ctor defs).fm_local_search.active = true
            ∧ (Configuration.ctor defs).her_fm.active = false
            ∧ (Configuration.ctor defs).lp_refiner.active = false
            ∧ toString showDouble (Configuration.ctor defs)
              = partitioningBlock showDouble (Configuration.ctor defs)
                ++ coarseningBlock showDouble (Configuration.ctor defs)
                ++ fmBlock showDouble (Configuration.ctor defs) := by
  refine ⟨toString_eq_blocks showDouble config, fun defs => ⟨rfl, rfl, rfl, ?_⟩⟩
  rw [toString_eq_blocks]
  simp [blockIf, Configuration.ctor, Configuration.FMParameters.ctor,
    Configuration.HERFMParameters.ctor, Configuration.LPRefinementParameters.ctor]

/-- C8: the initial-partitioner line of `toString` shows "hMetis" exactly when
`partition.initial_partitioner` is `hMetis` and "PaToH" for `PaToH` and for `KaHyPar`;
the rest of the output does not depend on the field, so setting it to `PaToH` or to
`KaHyPar` gives the same string. -/
theorem C8_initial_partitioner_line (showDouble : Double → String) (config : Configuration) :
    (∀ p : InitialPartitioner,
        initialPartitionerName p = "hMetis" ↔ p = InitialPartitioner.hMetis)
      ∧ initialPartitionerName InitialPartitioner.PaToH = "PaToH"
      ∧ initialPartitionerName InitialPartitioner.KaHyPar = "PaToH"
      ∧ (∀ p : InitialPartitioner, initialPartitionerName p ≠ "KaHyPar")
      ∧ (∀ p : InitialPartitioner,
          toString showDouble
              { config with partition := { config.partition with initial_partitioner := p } }
            = partitioningBlockHead showDouble config
              ++ entry "   initial partitioner: " (initialPartitionerName p)
              ++ partitioningBlockTail config
              ++ coarseningBlock showDouble config
              ++ blockIf config.fm_local_search.active (fmBlock showDouble config)
              ++ blockIf config.her_fm.active (herFmBlock config)
              ++ blockIf config.lp_refiner.active (lpBlock config))
      ∧ toString showDouble
            { config with partition :=
              { config.partition with initial_partitioner := InitialPartitioner.PaToH } }
          = toString showDouble
            { config with partition :=
              { config.partition with initial_partitioner := InitialPartitioner.KaHyPar } } := by
  have hline : ∀ p : InitialPartitioner,
      toString showDouble
          { config with partition := { config.partition with initial_partitioner := p } }
        = partitioningBlockHead showDouble config
          ++ entry "   initial partitioner: " (initialPartitionerName p)
          ++ partitioningBlockTail config
          ++ coarseningBlock showDouble config
          ++ blockIf config.fm_local_search.active (fmBlock showDouble config)
          ++ blockIf config.her_fm.active (herFmBlock config)
          ++ blockIf config.lp_refiner.active (lpBlock config) := by
    intro p
    rw [toString_eq_blocks]
    rfl
  refine ⟨?_, rfl, rfl, ?_, hline, ?_⟩
  · intro p
    cases p <;> simp [initialPartitionerName]
  · intro p
    cases p <;> simp [initialPartitionerName]
  · rw [hline, hline]
    rfl

/-- C9: two Configurations that agree on the fields other than `initial_partitioning`,
`partition.current_v_cycle` and `partition.verbose_output`, where the parameters of a
refiner whose `active` flag is false need not agree either, have the same `toString`. -/
theorem C9_toString_ignores_unprinted_fields (showDouble : Double → String)
    (c₁ c₂ : Configuration) (h : agreeOnPrinted c₁ c₂) :
    toString showDouble c₁ = toString showDouble c₂ := by
  obtain ⟨hp, hc, hfa, hf, hha, hh, hla, hl⟩ := h
  rw [toString_eq_blocks, toString_eq_blocks, partitioningBlock_congr showDouble c₁ c₂ hp,
    ← hfa, ← hha, ← hla]
  have e₁ : coarseningBlock showDouble c₁ = coarseningBlock showDouble c₂ := by
    simp only [coarseningBlock, hc]
  have e₂ : blockIf c₁.fm_local_search.active (fmBlock showDouble c₁)
      = blockIf c₁.fm_local_search.active (fmBlock showDouble c₂) := by
    cases ha : c₁.fm_local_search.active
    · rfl
    · simp only [blockIf, fmBlock, hf ha]
  have e₃ : blockIf c₁.her_fm.active (herFmBlock c₁)
      = blockIf c₁.her_fm.active (herFmBlock c₂) := by
    cases ha : c₁.her_fm.active
    · rfl
    · simp only [blockIf, herFmBlock, hh ha]
  have e₄ : blockIf c₁.lp_refiner.active (lpBlock c₁)
      = blockIf c₁.lp_refiner.active (lpBlock c₂) := by
    cases ha : c₁.lp_refiner.active
    · rfl
    · simp only [blockIf, lpBlock, hl ha]
  rw [e₁, e₂, e₃, e₄]

/-- C9 (witness): the default configuration and `Configuration.sample`, which differs from
it in `initial_partitioning`, in `current_v_cycle`, in `verbose_output` and in the
parameters of the two inactive refiners. -/
theorem C9_toString_ignores_unprinted_fields_witness :
    agreeOnPrinted (Configuration.ctor Defs.int32) Configuration.sample
      ∧ Configuration.ctor Defs.int32 ≠ Configuration.sample
      ∧ toString (fun _ => "?") (Configuration.ctor Defs.int32)
        = toString (fun _ => "?") Configuration.sample :=
  have hagree : agreeOnPrinted (Configuration.ctor Defs.int32) Configuration.sample :=
    ⟨rfl, rfl, rfl, fun _ => rfl, rfl, fun h => absurd h (by decide), rfl,
      fun h => absurd h (by decide)⟩
  ⟨hagree,
    fun h => absurd (congrArg (fun c => c.partition.current_v_cycle) h) (by decide),
    C9_toString_ignores_unprinted_fields _ _ _ hagree⟩

end partition
